import Mathlib

/-!
Shallow embedding of `Secure_C_Programming_Guide/IntegerOverflow/integer_overflow_good.c`.

The C program is:

  int main() {
      uint8_t a = 200, b = 100;
      if (UINT8_MAX - a < b) {
          printf("Overflow detected!\n");
      } else {
          uint8_t total = a + b;
          printf("Sum: %u\n", total);
      }
      return 0;
  }

Modelling decisions, following C semantics:
- `uint8_t` values are `Nat`s in `[0, 255]`; range hypotheses are made explicit.
- In the guard `UINT8_MAX - a < b` both operands are promoted to `int`, so the
  subtraction and comparison are exact signed arithmetic; we embed it over `Int`.
- `uint8_t total = a + b` converts the `int` sum back to `uint8_t`, which in C
  reduces modulo 256; we embed it as `(a + b) % 256`.
- `printf("%u", total)` renders the value of `total` in decimal; we embed the
  program's observable behaviour as a list of stdout lines plus an exit code.
-/

namespace IntegerOverflowGood

/-- The constant UINT8_MAX from stdint.h: the maximum value of a uint8_t. -/
def UINT8_MAX : Nat := 255

/-- The observable outcome of the conditional in main: either the overflow
branch was taken, or the sum branch was taken with the computed uint8_t total. -/
inductive Output where
  | overflow : Output
  | sum (total : Nat) : Output
deriving DecidableEq, Repr

/-- The branch logic of main on operands a and b: the C guard
`UINT8_MAX - a < b` evaluated over int (integer promotion), and on the else
branch the uint8_t store `total = a + b`, which wraps modulo 256. -/
def run (a b : Nat) : Output :=
  if (UINT8_MAX : Int) - (a : Int) < (b : Int) then
    Output.overflow
  else
    Output.sum ((a + b) % 256)

/-- Whether the outcome is the sum branch (a Sum line was printed). -/
def isSum : Output → Bool
  | Output.overflow => false
  | Output.sum _ => true

/-- The stdout line each branch of main prints (without the trailing newline):
`printf("Overflow detected!\n")` or `printf("Sum: %u\n", total)`. -/
def renderLine : Output → String
  | Output.overflow => "Overflow detected!"
  | Output.sum total => "Sum: " ++ toString total

/-- The observable result of one process run: the lines written to standard
output and the process exit code. -/
structure ProgResult where
  stdout : List String
  exitCode : Nat
deriving DecidableEq, Repr

/-- main on operands a and b: one line of output from the taken branch, then
`return 0`, which both branches fall through to. -/
def mainRun (a b : Nat) : ProgResult :=
  { stdout := [renderLine (run a b)], exitCode := 0 }

/-- A full process run. main takes no parameters and reads nothing, so the
command-line arguments and standard-input contents are ignored; the operands
are the literals `a = 200, b = 100` from line 6 of the source. -/
def programRun (argv : List String) (stdinData : String) : ProgResult :=
  mainRun 200 100

/-- The program as written, run with empty arguments and empty input. -/
def program : ProgResult := programRun [] ""

/-- The int subexpression `UINT8_MAX - a` of the guard on line 7. -/
def guardSub (a : Nat) : Int := (UINT8_MAX : Int) - (a : Int)

/-- A Sum line never coincides with the overflow message: the two strings
differ already in their first character. -/
theorem sum_line_ne_overflow_line (s : String) :
    "Sum: " ++ s ≠ "Overflow detected!" := by
  intro h
  have h2 : ("Sum: " ++ s).data = ("Overflow detected!" : String).data := by
    rw [h]
  rw [String.data_append] at h2
  have h3 : "Sum: ".data = ['S', 'u', 'm', ':', ' '] := rfl
  have h4 : "Overflow detected!".data =
      ['O', 'v', 'e', 'r', 'f', 'l', 'o', 'w', ' ', 'd', 'e', 't', 'e', 'c',
       't', 'e', 'd', '!'] := rfl
  rw [h3, h4] at h2
  exact absurd (List.head_eq_of_cons_eq h2) (by decide)

/-- C1: with the program's literal operands a = 200 and b = 100, the single
stdout line is exactly "Overflow detected!" (255 - 200 = 55 < 100 makes the
guard take the overflow branch). -/
theorem c1_prints_overflow : program.stdout = ["Overflow detected!"] := by
  decide

/-- C2: whenever 255 - a < b (operands in [0, 255]), the branch logic takes
the overflow branch, so the only output line is "Overflow detected!" and no
Sum line is printed. -/
theorem c2_overflow_branch (a b : Nat) (ha : a ≤ 255) (hb : b ≤ 255)
    (h : 255 - a < b) :
    (mainRun a b).stdout = ["Overflow detected!"] ∧ isSum (run a b) = false := by
  have hguard : (UINT8_MAX : Int) - (a : Int) < (b : Int) := by
    simp only [UINT8_MAX]; omega
  refine ⟨?_, ?_⟩
  · simp [mainRun, run, renderLine, hguard]
  · simp [run, isSum, hguard]

/-- Witness for C2 at a = 200, b = 100. -/
theorem c2_overflow_branch_witness :
    (mainRun 200 100).stdout = ["Overflow detected!"] ∧
      isSum (run 200 100) = false :=
  c2_overflow_branch 200 100 (by decide) (by decide) (by decide)

/-- C3: whenever 255 - a ≥ b (operands in [0, 255]), the branch logic takes
the sum branch and prints "Sum: " followed by the exact decimal value of the
mathematical sum a + b. -/
theorem c3_sum_branch (a b : Nat) (ha : a ≤ 255) (hb : b ≤ 255)
    (h : b ≤ 255 - a) :
    (mainRun a b).stdout = ["Sum: " ++ toString (a + b)] := by
  have hguard : ¬ ((UINT8_MAX : Int) - (a : Int) < (b : Int)) := by
    simp only [UINT8_MAX]; omega
  have hmod : (a + b) % 256 = a + b := Nat.mod_eq_of_lt (by omega)
  simp [mainRun, run, renderLine, hguard, hmod]

/-- Witness for C3 at a = 100, b = 50. -/
theorem c3_sum_branch_witness :
    (mainRun 100 50).stdout = ["Sum: " ++ toString (100 + 50)] :=
  c3_sum_branch 100 50 (by decide) (by decide) (by decide)

/-- C4: on the non-overflow branch the 8-bit addition cannot wrap: from
255 - a ≥ b (operands in [0, 255]) the true sum is at most 255, the modular
reduction is the identity, and the computed total equals a + b. -/
theorem c4_no_wrap (a b : Nat) (ha : a ≤ 255) (hb : b ≤ 255)
    (h : b ≤ 255 - a) :
    a + b ≤ 255 ∧ (a + b) % 256 = a + b ∧ run a b = Output.sum (a + b) := by
  have hle : a + b ≤ 255 := by omega
  have hmod : (a + b) % 256 = a + b := Nat.mod_eq_of_lt (by omega)
  have hguard : ¬ ((UINT8_MAX : Int) - (a : Int) < (b : Int)) := by
    simp only [UINT8_MAX]; omega
  exact ⟨hle, hmod, by simp [run, hguard, hmod]⟩

/-- Witness for C4 at a = 100, b = 155. -/
theorem c4_no_wrap_witness :
    100 + 155 ≤ 255 ∧ (100 + 155) % 256 = 100 + 155 ∧
      run 100 155 = Output.sum (100 + 155) :=
  c4_no_wrap 100 155 (by decide) (by decide) (by decide)

/-- C5: the guard is exactly the glossary's overflow condition: for operands
in [0, 255], `UINT8_MAX - a < b` (over int) holds iff the true mathematical
sum a + b exceeds 255. -/
theorem c5_guard_iff_overflow (a b : Nat) (ha : a ≤ 255) (hb : b ≤ 255) :
    ((UINT8_MAX : Int) - (a : Int) < (b : Int)) ↔ 255 < a + b := by
  simp only [UINT8_MAX]
  omega

/-- Witness for C5 at the boundary a = 1, b = 255. -/
theorem c5_guard_iff_overflow_witness :
    ((UINT8_MAX : Int) - (1 : Nat) < ((255 : Nat) : Int)) ↔ 255 < 1 + 255 :=
  c5_guard_iff_overflow 1 255 (by decide) (by decide)

/-- C6: the exit code is 0 unconditionally: whatever the operands and
whichever branch is taken, main falls through to the same `return 0`. -/
theorem c6_exit_code_zero (a b : Nat) : (mainRun a b).exitCode = 0 := rfl

/-- C7: every run writes exactly one line, which is either the overflow
message or a Sum line rendering the unsigned total in decimal, and never
both: the two forms are mutually exclusive. -/
theorem c7_single_line (a b : Nat) :
    (mainRun a b).stdout.length = 1 ∧
      ((mainRun a b).stdout = ["Overflow detected!"] ∨
        (mainRun a b).stdout = ["Sum: " ++ toString ((a + b) % 256)]) ∧
      ¬ ((mainRun a b).stdout = ["Overflow detected!"] ∧
        (mainRun a b).stdout = ["Sum: " ++ toString ((a + b) % 256)]) := by
  refine ⟨rfl, ?_, ?_⟩
  · by_cases hguard : (UINT8_MAX : Int) - (a : Int) < (b : Int)
    · left; simp [mainRun, run, renderLine, hguard]
    · right; simp [mainRun, run, renderLine, hguard]
  · rintro ⟨h1, h2⟩
    rw [h1] at h2
    exact sum_line_ne_overflow_line _ (List.head_eq_of_cons_eq h2.symm)

/-- C8: boundary case a = 0, b = 255: the guard computes 255 - 0 = 255,
which is not less than 255, so the sum branch runs and prints "Sum: 255". -/
theorem c8_boundary_sum_255 : (mainRun 0 255).stdout = ["Sum: 255"] := by
  decide

/-- C9: the program is deterministic and input-independent: main takes no
arguments and reads nothing, so any two runs, whatever the command line and
standard input, produce the identical result (stdout and exit code). -/
theorem c9_input_independent (argv₁ argv₂ : List String)
    (stdin₁ stdin₂ : String) :
    programRun argv₁ stdin₁ = programRun argv₂ stdin₂ := rfl

/-- C10: the guard subexpression UINT8_MAX - a (computed over int after
promotion) never wraps or underflows: for a in [0, 255] its value lies in
[0, 255]. -/
theorem c10_guard_sub_in_range (a : Nat) (ha : a ≤ 255) :
    0 ≤ guardSub a ∧ guardSub a ≤ 255 := by
  simp only [guardSub, UINT8_MAX]
  omega

/-- Witness for C10 at a = 200. -/
theorem c10_guard_sub_in_range_witness :
    0 ≤ guardSub 200 ∧ guardSub 200 ≤ 255 :=
  c10_guard_sub_in_range 200 (by decide)

end IntegerOverflowGood
